import Mathlib

/-!
Verification of the connection/channel core of the `lapin` AMQP client
(files `async/src/channel_status.rs` and `futures/src/client.rs`),
shallowly embedded in Lean 4.
-/

set_option autoImplicit false

namespace Lapin

/-- Opaque correlation identifier (`requests::RequestId`); modelled as `Nat`. -/
def RequestId : Type := Nat

instance : DecidableEq RequestId := instDecidableEqNat

instance : BEq RequestId := instBEqOfDecidableEq

/-- Rust `ChannelState` from `channel_status.rs`: one variant per protocol state,
content-transfer states carry their payloads
(`Either<RequestId, String>` becomes `Sum RequestId String`). -/
inductive ChannelState : Type
  | Initial : ChannelState
  | Connected : ChannelState
  | Closing : ChannelState
  | Closed : ChannelState
  | Error : ChannelState
  | SendingContent : Nat → ChannelState
  | WillReceiveContent : Option String → Sum RequestId String → ChannelState
  | ReceivingContent : Option String → Sum RequestId String → Nat → ChannelState
deriving DecidableEq, BEq

/-- Source `impl Default for ChannelState`: the default state is `Initial`. -/
def ChannelState.defaultState : ChannelState := ChannelState.Initial

/-- Rust `Inner` from `channel_status.rs`: the record protected by the
`RwLock` inside `ChannelStatus`.  A `ChannelStatus` is an
`Arc<RwLock<Inner>>`; in the embedding the serialization by the lock is the
implicit sequencing of pure state-passing, so the status is its `Inner`. -/
structure Inner : Type where
  confirm : Bool
  send_flow : Bool
  state : ChannelState
deriving DecidableEq

/-- Source `impl Default for Inner`: `{ confirm: false, send_flow: true, state: Initial }`. -/
def Inner.defaultInner : Inner :=
  { confirm := false, send_flow := true, state := ChannelState.defaultState }

namespace ChannelStatus

/-- Method `ChannelStatus::is_initializing`. -/
def is_initializing (st : Inner) : Bool :=
  st.state == ChannelState.Initial

/-- Method `ChannelStatus::is_connected`: negation of membership of the current
state in `[Initial, Closing, Closed, Error]`, exactly as the source line
`!&[...].contains(&self.inner.read().state)`. -/
def is_connected (st : Inner) : Bool :=
  !([ChannelState.Initial, ChannelState.Closing,
     ChannelState.Closed, ChannelState.Error].contains st.state)

/-- Method `ChannelStatus::confirm`. -/
def confirm (st : Inner) : Bool :=
  st.confirm

/-- Method `ChannelStatus::set_confirm`: writes `confirm = true`. -/
def set_confirm (st : Inner) : Inner :=
  { st with confirm := true }

/-- Method `ChannelStatus::state`. -/
def state (st : Inner) : ChannelState :=
  st.state

/-- Method `ChannelStatus::set_state`: unconditionally overwrites the state. -/
def set_state (st : Inner) (s : ChannelState) : Inner :=
  { st with state := s }

/-- Method `ChannelStatus::set_send_flow`. -/
def set_send_flow (st : Inner) (flow : Bool) : Inner :=
  { st with send_flow := flow }

end ChannelStatus

/-- The mutating operations available on a `ChannelStatus`.  The readers
(`state`, `confirm`, `is_connected`, `is_initializing`) are pure
functions of the `Inner` and appear in sequences as no-ops. -/
inductive StatusOp : Type
  | setState : ChannelState → StatusOp
  | setConfirm : StatusOp
  | setSendFlow : Bool → StatusOp
  | read : StatusOp

/-- Apply one operation to the status. -/
def applyOp (st : Inner) : StatusOp → Inner
  | StatusOp.setState s => ChannelStatus.set_state st s
  | StatusOp.setConfirm => ChannelStatus.set_confirm st
  | StatusOp.setSendFlow b => ChannelStatus.set_send_flow st b
  | StatusOp.read => st

/-- Apply a sequence of operations, left to right. -/
def applyOps (st : Inner) (ops : List StatusOp) : Inner :=
  ops.foldl applyOp st

/-- Model of `io::Error` as its message. -/
abbrev IOError : Type := String

/-- Completion value of the heartbeat task built by `heartbeat_pulse`.
`running` means the task has not completed within the observed trace;
`aborted` is the clean completion produced by cancellation
(`Err(Aborted)` of `future::abortable`); `ioError` is the terminal
error of a failed per-tick `send_heartbeat`. -/
inductive HBOutcome : Type
  | running : HBOutcome
  | aborted : HBOutcome
  | ioError : IOError → HBOutcome
deriving DecidableEq

/-- Inner loop of `heartbeat_pulse` for a nonzero interval, wrapped in
`future::abortable`.  `ticks` lists the outcome `send_heartbeat` would
produce at each successive timer tick; `cancelAfter = some k` means the
cancellation handle fires at poll index `k`, before the send attempt of
tick `k` (the abort flag is checked at the start of each poll, so a
cancellation racing a tick resolves to the aborted path).  Returns the
completion value together with the number of `send_heartbeat` calls
(Transport accesses) actually performed. -/
def pulseLoop : List (Except IOError Unit) → Option Nat → HBOutcome × Nat
  | [], c => if c.isSome then (HBOutcome.aborted, 0) else (HBOutcome.running, 0)
  | r :: rest, c =>
    match c with
    | some 0 => (HBOutcome.aborted, 0)
    | _ =>
      match r with
      | Except.error e => (HBOutcome.ioError e, 1)
      | Except.ok _ =>
        let p := pulseLoop rest (c.map fun k => k - 1)
        (p.1, p.2 + 1)

/-- Behaviour of the future built by `heartbeat_pulse transport heartbeat`.
With `heartbeat == 0` the interval construction is `Err(())`, the
`or_else(|_| future::empty())` branch never resolves, the `and_then`
body (and hence any `send_heartbeat`) never runs, and the only way the
abortable wrapper completes is cancellation; with a nonzero interval the
tick loop runs.  The timer (`Interval::new(Instant::now(), ..)`) fires
immediately, so tick `0` is the attempt at task start. -/
def heartbeatRun (heartbeat : Nat) (ticks : List (Except IOError Unit))
    (cancelAfter : Option Nat) : HBOutcome × Nat :=
  if heartbeat = 0 then
    (if cancelAfter.isSome then HBOutcome.aborted else HBOutcome.running, 0)
  else
    pulseLoop ticks cancelAfter

/-- Model of `HeartbeatHandle`: wraps the one-shot `oneshot::Sender<()>`. -/
structure HeartbeatHandle : Type where
  token : Unit
deriving DecidableEq

/-- Method `HeartbeatHandle::stop`: sends on the one-shot channel; when the
receiver is gone the `Err` of `send` is swallowed and merely logged via
`warn!`.  The model returns the unit result together with the log lines
emitted, so that the absence of any error return is visible in the type. -/
def HeartbeatHandle.stop (_h : HeartbeatHandle) (receiverAlive : Bool) :
    Unit × List String :=
  if receiverAlive then
    ((), [])
  else
    ((), ["Could not send stop signal to heartbeat: already gone"])

/-- Rust `Heartbeat` struct: the one-shot handle slot (field `handle`,
renamed since the accessor method keeps the source name) and the pulse
future, represented by its interval parameter. -/
structure Heartbeat : Type where
  handleSlot : Option HeartbeatHandle
  interval : Nat
deriving DecidableEq

/-- Method `Heartbeat::handle`: `self.handle.take()` — returns the stored
handle and leaves `None` behind. -/
def Heartbeat.handle (h : Heartbeat) : Option HeartbeatHandle × Heartbeat :=
  (h.handleSlot, { h with handleSlot := none })

/-- State of a `Heartbeat` after `n` further calls to `handle`. -/
def Heartbeat.handleIter (h : Heartbeat) : Nat → Heartbeat
  | 0 => h
  | n + 1 => Heartbeat.handleIter (h.handle).2 n

/-- Function `make_heartbeat`: builds the pulse via `heartbeat_pulse` and
stores the cancellation handle as `Some`. -/
def make_heartbeat (heartbeat : Nat) : Heartbeat :=
  { handleSlot := some { token := () }, interval := heartbeat }

/-- Rust `ConnectionOptions` from `client.rs` (`frame_max: u32`,
`heartbeat: u16`, modelled as `Nat`). -/
structure ConnectionOptions : Type where
  username : String
  password : String
  vhost : String
  frame_max : Nat
  heartbeat : Nat
deriving DecidableEq

/-- Shape of the external `AMQPUri` value, restricted to the fields
`ConnectionOptions::from_uri` reads: `uri.authority.userinfo`,
`uri.vhost`, `uri.query.frame_max`, `uri.query.heartbeat`. -/
structure AMQPUserinfo : Type where
  username : String
  password : String

structure AMQPAuthority : Type where
  userinfo : AMQPUserinfo

structure AMQPQueryString : Type where
  frame_max : Option Nat
  heartbeat : Option Nat

structure AMQPUri : Type where
  authority : AMQPAuthority
  vhost : String
  query : AMQPQueryString

namespace ConnectionOptions

/-- Method `ConnectionOptions::from_uri`. -/
def from_uri (uri : AMQPUri) : ConnectionOptions :=
  { username := uri.authority.userinfo.username
    password := uri.authority.userinfo.password
    vhost := uri.vhost
    frame_max := uri.query.frame_max.getD 0
    heartbeat := uri.query.heartbeat.getD 0 }

/-- Source `impl Default for ConnectionOptions`. -/
def defaultOptions : ConnectionOptions :=
  { username := "guest"
    password := "guest"
    vhost := "/"
    frame_max := 0
    heartbeat := 0 }

end ConnectionOptions

/-- Store of channel statuses: `ChannelStatus` values are `Arc`-shared
cells, so channels reference them by index and clones share the index. -/
structure ChanWorld : Type where
  statuses : List Inner
deriving DecidableEq

/-- Model of a `Channel` restricted to what `create_confirm_channel`
needs: the reference to its shared `ChannelStatus` cell. -/
structure Channel : Type where
  statusRef : Nat
deriving DecidableEq

/-- Status cell a channel references. -/
def ChanWorld.statusOf (w : ChanWorld) (ch : Channel) : Inner :=
  w.statuses.getD ch.statusRef Inner.defaultInner

/-- Modelled from the spec: `Channel::create` (in `channel.rs`, which is
not under `src/`) — "allocates a new channel number, constructs a
default `ChannelStatus` (`Initial`), and performs the broker handshake
to open it; resolves to an open `Channel` or fails with an I/O error if
the handshake fails".  `handshakeOk` stands for the outcome of the broker
round-trip; the status of the opened channel starts from the default. -/
def Channel.create (w : ChanWorld) (handshakeOk : Bool) :
    Except IOError (Channel × ChanWorld) :=
  if handshakeOk then
    Except.ok ({ statusRef := w.statuses.length },
      { statuses :=
          w.statuses ++
            [ChannelStatus.set_state Inner.defaultInner ChannelState.Connected] })
  else
    Except.error "channel open failed"

/-- Modelled from the spec: `Channel::clone` — "Cloning a `Channel` shares
the same `ChannelStatus` storage"; the clone references the same cell. -/
def Channel.clone (ch : Channel) : Channel :=
  ch

/-- Modelled from the spec: `Channel::confirm_select` (in `channel.rs`,
not under `src/`) — "enables publisher-confirm mode on this channel via
a broker round-trip; on success the confirm flag is set on the status of the
channel".  `brokerOk` stands for the outcome of the round-trip. -/
def Channel.confirm_select (ch : Channel) (w : ChanWorld) (brokerOk : Bool) :
    Except IOError ChanWorld :=
  if brokerOk then
    Except.ok
      { statuses :=
          w.statuses.set ch.statusRef (ChannelStatus.set_confirm (w.statusOf ch)) }
  else
    Except.error "confirm_select failed"

/-- Method `Client::create_confirm_channel`, mirroring the source chain
`self.create_channel().and_then(|channel| { let ch = channel.clone();
channel.confirm_select(options).map(|_| ch) })`. -/
def create_confirm_channel (w : ChanWorld) (handshakeOk brokerOk : Bool) :
    Except IOError (Channel × ChanWorld) :=
  match Channel.create w handshakeOk with
  | Except.error e => Except.error e
  | Except.ok (channel, w1) =>
    let ch := channel.clone
    match channel.confirm_select w1 brokerOk with
    | Except.error e => Except.error e
    | Except.ok w2 => Except.ok (ch, w2)

/-! Helper lemmas shared by the claim theorems. -/

/-- Unfolding of `pulseLoop` on a successful tick with no pending abort. -/
lemma pulseLoop_ok_none (rest : List (Except IOError Unit)) :
    pulseLoop (Except.ok () :: rest) none =
      ((pulseLoop rest none).1, (pulseLoop rest none).2 + 1) := rfl

/-- With no cancellation, the first failing tick terminates the loop with
the I/O error of that tick, after one send per preceding successful tick. -/
lemma pulseLoop_errorDefault (n : Nat) (e : IOError) (rest : List (Except IOError Unit)) :
    pulseLoop (List.replicate n (Except.ok ()) ++ Except.error e :: rest) none =
      (HBOutcome.ioError e, n + 1) := by
  induction n with
  | zero => rfl
  | succ n ih =>
    rw [List.replicate_succ, List.cons_append, pulseLoop_ok_none, ih]

/-- Unfolding of `pulseLoop` on a successful tick with an abort still
pending at a later poll index. -/
lemma pulseLoop_ok_someSucc (rest : List (Except IOError Unit)) (j : Nat) :
    pulseLoop (Except.ok () :: rest) (some (j + 1)) =
      ((pulseLoop rest (some j)).1, (pulseLoop rest (some j)).2 + 1) := rfl

/-- A cancellation delivered at poll index `k ≤ n` wins over any later tick,
completing the loop as `aborted` after exactly `k` sends. -/
lemma pulseLoop_cancelWins (n : Nat) (e : IOError) (rest : List (Except IOError Unit)) :
    ∀ k : Nat, k ≤ n →
      pulseLoop (List.replicate n (Except.ok ()) ++ Except.error e :: rest) (some k) =
        (HBOutcome.aborted, k) := by
  induction n with
  | zero =>
    intro k hk
    have hk0 : k = 0 := Nat.le_zero.mp hk
    subst hk0
    rfl
  | succ n ih =>
    intro k hk
    cases k with
    | zero => rfl
    | succ j =>
      rw [List.replicate_succ, List.cons_append, pulseLoop_ok_someSucc,
        ih j (Nat.succ_le_succ_iff.mp hk)]

/-- Every `applyOp` step preserves a set confirm flag. -/
lemma applyOp_confirm_mono (st : Inner) (op : StatusOp) (h : st.confirm = true) :
    (applyOp st op).confirm = true := by
  cases op <;>
    simp [applyOp, ChannelStatus.set_state, ChannelStatus.set_confirm,
      ChannelStatus.set_send_flow, h]

/-- Reading the freshly appended, then overwritten, last cell of the store. -/
lemma getD_set_append (l : List Inner) (a b d : Inner) :
    ((l ++ [a]).set l.length b).getD l.length d = b := by
  induction l with
  | nil => rfl
  | cons x xs ih =>
    rw [List.cons_append, List.length_cons, List.set_cons_succ, List.getD_cons_succ]
    exact ih

/-- Once the handle slot is empty it stays empty under any number of
further `handle` calls. -/
lemma handleIter_none (iv : Nat) (n : Nat) :
    Heartbeat.handleIter { handleSlot := none, interval := iv } n =
      { handleSlot := none, interval := iv } := by
  induction n with
  | zero => rfl
  | succ n ih => exact ih

/-- Computation of `create_confirm_channel` when the channel handshake fails. -/
lemma create_confirm_channel_handshakeFail (w : ChanWorld) (brokerOk : Bool) :
    create_confirm_channel w false brokerOk =
      Except.error "channel open failed" := rfl

/-- Computation of `create_confirm_channel` when confirm activation fails. -/
lemma create_confirm_channel_confirmFail (w : ChanWorld) :
    create_confirm_channel w true false =
      Except.error "confirm_select failed" := rfl

/-- Computation of `create_confirm_channel` when both round-trips succeed. -/
lemma create_confirm_channel_ok (w : ChanWorld) :
    create_confirm_channel w true true =
      Except.ok
        ({ statusRef := w.statuses.length },
          { statuses :=
              (w.statuses ++
                [ChannelStatus.set_state Inner.defaultInner ChannelState.Connected]).set
                w.statuses.length
                (ChannelStatus.set_confirm
                  (ChanWorld.statusOf
                    { statuses :=
                        w.statuses ++
                          [ChannelStatus.set_state Inner.defaultInner
                            ChannelState.Connected] }
                    { statusRef := w.statuses.length })) }) := rfl

/-! Claim theorems. -/

/-- C1: for the heartbeat task built by `heartbeat_pulse` / `make_heartbeat`
(modelled by `heartbeatRun`), a per-tick `send_heartbeat` failure becomes
the terminal error of the task; when cancellation via the one-shot handle
fires at or before the failing tick, the task completes cleanly as
`aborted` instead; and the two completion values are distinguishable. -/
theorem C1_tick_failure_vs_cancellation :
    (∀ (iv n : Nat) (e : IOError) (rest : List (Except IOError Unit)), iv ≠ 0 →
        heartbeatRun iv (List.replicate n (Except.ok ()) ++ Except.error e :: rest)
          none = (HBOutcome.ioError e, n + 1)) ∧
    (∀ (iv n k : Nat) (e : IOError) (rest : List (Except IOError Unit)),
        iv ≠ 0 → k ≤ n →
        heartbeatRun iv (List.replicate n (Except.ok ()) ++ Except.error e :: rest)
          (some k) = (HBOutcome.aborted, k)) ∧
    (∀ e : IOError, HBOutcome.aborted ≠ HBOutcome.ioError e) := by
  refine ⟨?_, ?_, ?_⟩
  · intro iv n e rest hiv
    rw [heartbeatRun, if_neg hiv]
    exact pulseLoop_errorDefault n e rest
  · intro iv n k e rest hiv hk
    rw [heartbeatRun, if_neg hiv]
    exact pulseLoop_cancelWins n e rest k hk
  · intro e h
    exact HBOutcome.noConfusion h

/-- Witness for C1 at interval 1, one good tick then a failing tick. -/
theorem C1_tick_failure_vs_cancellation_witness :
    heartbeatRun 1 [Except.ok (), Except.error "io"] none =
      (HBOutcome.ioError "io", 2) ∧
    heartbeatRun 1 [Except.ok (), Except.error "io"] (some 1) =
      (HBOutcome.aborted, 1) ∧
    HBOutcome.aborted ≠ HBOutcome.ioError "io" :=
  ⟨C1_tick_failure_vs_cancellation.1 1 1 "io" [] (by decide),
   C1_tick_failure_vs_cancellation.2.1 1 1 1 "io" [] (by decide) (by decide),
   C1_tick_failure_vs_cancellation.2.2 "io"⟩

/-- C2: with a negotiated heartbeat interval of zero, the task never calls
`send_heartbeat` (zero Transport accesses) whatever the elapsed tick trace,
and it is still a valid, completable task: a cancellation completes it. -/
theorem C2_zero_interval_never_sends (ticks : List (Except IOError Unit))
    (cancelAfter : Option Nat) (k : Nat) :
    (heartbeatRun 0 ticks cancelAfter).2 = 0 ∧
    (heartbeatRun 0 ticks (some k)).1 = HBOutcome.aborted :=
  ⟨rfl, rfl⟩

/-- C3: on every `Heartbeat` produced by `make_heartbeat`, the first call to
`handle` returns the `HeartbeatHandle` and every subsequent call on the
same value returns `none`. -/
theorem C3_handle_exactly_once (iv : Nat) :
    ((make_heartbeat iv).handle).1 = some { token := () } ∧
    ∀ n : Nat,
      ((Heartbeat.handleIter ((make_heartbeat iv).handle).2 n).handle).1 = none := by
  refine ⟨rfl, ?_⟩
  intro n
  have h2 : ((make_heartbeat iv).handle).2 =
      { handleSlot := none, interval := iv } := rfl
  rw [h2, handleIter_none]
  rfl

/-- C4: for every constructible `ChannelState`, including the parameterized
content-transfer states with arbitrary payloads, `is_connected` returns
`false` exactly on `Initial`, `Closing`, `Closed`, `Error`, and `true` on
every other state. -/
theorem C4_is_connected_characterisation (st : Inner) :
    ChannelStatus.is_connected st = false ↔
      (st.state = ChannelState.Initial ∨ st.state = ChannelState.Closing ∨
       st.state = ChannelState.Closed ∨ st.state = ChannelState.Error) := by
  obtain ⟨c, f, s⟩ := st
  cases s
  case Initial => exact iff_of_true rfl (Or.inl rfl)
  case Closing => exact iff_of_true rfl (Or.inr (Or.inl rfl))
  case Closed => exact iff_of_true rfl (Or.inr (Or.inr (Or.inl rfl)))
  case Error => exact iff_of_true rfl (Or.inr (Or.inr (Or.inr rfl)))
  case Connected =>
    exact iff_of_false (fun h => nomatch h)
      (by rintro (h | h | h | h) <;> exact ChannelState.noConfusion h)
  case SendingContent n =>
    exact iff_of_false (fun h => nomatch h)
      (by rintro (h | h | h | h) <;> exact ChannelState.noConfusion h)
  case WillReceiveContent a b =>
    exact iff_of_false (fun h => nomatch h)
      (by rintro (h | h | h | h) <;> exact ChannelState.noConfusion h)
  case ReceivingContent a b r =>
    exact iff_of_false (fun h => nomatch h)
      (by rintro (h | h | h | h) <;> exact ChannelState.noConfusion h)

/-- C5: `confirm` is `false` on the default status, any single `set_confirm`
makes it `true`, and no sequence of available operations ever makes it
`false` again. -/
theorem C5_confirm_one_way :
    ChannelStatus.confirm Inner.defaultInner = false ∧
    (∀ st : Inner, ChannelStatus.confirm (applyOp st StatusOp.setConfirm) = true) ∧
    (∀ (st : Inner) (ops : List StatusOp),
        ChannelStatus.confirm st = true →
        ChannelStatus.confirm (applyOps st ops) = true) := by
  refine ⟨rfl, fun st => rfl, ?_⟩
  intro st ops
  induction ops generalizing st with
  | nil => exact fun h => h
  | cons op rest ih =>
    intro h
    exact ih (applyOp st op) (applyOp_confirm_mono st op h)

/-- Witness for C5: the flag stays set across later mutators and reads. -/
theorem C5_confirm_one_way_witness :
    ChannelStatus.confirm
      (applyOps { confirm := true, send_flow := true, state := ChannelState.Initial }
        [StatusOp.setState ChannelState.Closed, StatusOp.setSendFlow false,
         StatusOp.read]) = true :=
  C5_confirm_one_way.2.2
    { confirm := true, send_flow := true, state := ChannelState.Initial }
    [StatusOp.setState ChannelState.Closed, StatusOp.setSendFlow false,
     StatusOp.read] rfl

/-- C6: whenever `create_confirm_channel` resolves to a channel, the status
of that channel has `confirm = true`; on any failure no channel is
returned at all (the result is `Except.error`). -/
theorem C6_confirm_channel_never_unconfirmed (w : ChanWorld)
    (handshakeOk brokerOk : Bool) (ch : Channel) (w2 : ChanWorld)
    (h : create_confirm_channel w handshakeOk brokerOk = Except.ok (ch, w2)) :
    ChannelStatus.confirm (w2.statusOf ch) = true := by
  cases handshakeOk with
  | false =>
    rw [create_confirm_channel_handshakeFail] at h
    exact Except.noConfusion h
  | true =>
    cases brokerOk with
    | false =>
      rw [create_confirm_channel_confirmFail] at h
      exact Except.noConfusion h
    | true =>
      rw [create_confirm_channel_ok] at h
      injection h with hpair
      injection hpair with h1 h2
      subst h1
      subst h2
      simp only [ChanWorld.statusOf]
      rw [getD_set_append]
      rfl

/-- Witness for C6: an empty world, both round-trips succeed. -/
theorem C6_confirm_channel_never_unconfirmed_witness :
    ChannelStatus.confirm
      ((ChanWorld.mk
          [{ confirm := true, send_flow := true, state := ChannelState.Connected }]).statusOf
        { statusRef := 0 }) = true :=
  C6_confirm_channel_never_unconfirmed { statuses := [] } true true
    { statusRef := 0 }
    { statuses := [{ confirm := true, send_flow := true, state := ChannelState.Connected }] }
    rfl

/-- C7: `set_state` unconditionally replaces the state with its argument (no
validation), and after any sequence of `set_state` calls `state` returns
exactly the last value set. -/
theorem C7_set_state_last_wins :
    (∀ (st : Inner) (s : ChannelState),
        applyOp st (StatusOp.setState s) = { st with state := s }) ∧
    (∀ (st : Inner) (ss : List ChannelState) (s : ChannelState),
        ChannelStatus.state
          (applyOps st ((ss ++ [s]).map StatusOp.setState)) = s) := by
  refine ⟨fun st s => rfl, ?_⟩
  intro st ss s
  induction ss generalizing st with
  | nil => rfl
  | cons x xs ih => exact ih (applyOp st (StatusOp.setState x))

/-- C8: the default `ConnectionOptions` are guest/guest, vhost `/`,
`frame_max = 0`, `heartbeat = 0`; and `from_uri` falls back to `frame_max
= 0` and `heartbeat = 0` whenever the URI query omits them, taking
credentials and vhost from the URI authority. -/
theorem C8_options_defaults (uri : AMQPUri)
    (hf : uri.query.frame_max = none) (hh : uri.query.heartbeat = none) :
    ConnectionOptions.defaultOptions =
      { username := "guest", password := "guest", vhost := "/",
        frame_max := 0, heartbeat := 0 } ∧
    ConnectionOptions.from_uri uri =
      { username := uri.authority.userinfo.username,
        password := uri.authority.userinfo.password,
        vhost := uri.vhost, frame_max := 0, heartbeat := 0 } := by
  refine ⟨rfl, ?_⟩
  simp [ConnectionOptions.from_uri, hf, hh]

/-- Witness for C8 at a concrete URI with an empty query. -/
theorem C8_options_defaults_witness :
    ConnectionOptions.defaultOptions =
      { username := "guest", password := "guest", vhost := "/",
        frame_max := 0, heartbeat := 0 } ∧
    ConnectionOptions.from_uri
      { authority := { userinfo := { username := "u", password := "p" } },
        vhost := "/v", query := { frame_max := none, heartbeat := none } } =
      { username := "u", password := "p", vhost := "/v",
        frame_max := 0, heartbeat := 0 } :=
  C8_options_defaults
    { authority := { userinfo := { username := "u", password := "p" } },
      vhost := "/v", query := { frame_max := none, heartbeat := none } }
    rfl rfl

/-- C9: each mutator touches only its own field: `set_state` preserves the
confirm and send-flow flags, `set_confirm` preserves state and send-flow,
`set_send_flow` preserves state and confirm. -/
theorem C9_mutators_touch_only_own_field (st : Inner) (s : ChannelState) (b : Bool) :
    ((ChannelStatus.set_state st s).confirm = st.confirm ∧
      (ChannelStatus.set_state st s).send_flow = st.send_flow) ∧
    ((ChannelStatus.set_confirm st).state = st.state ∧
      (ChannelStatus.set_confirm st).send_flow = st.send_flow) ∧
    ((ChannelStatus.set_send_flow st b).state = st.state ∧
      (ChannelStatus.set_send_flow st b).confirm = st.confirm) :=
  ⟨⟨rfl, rfl⟩, ⟨rfl, rfl⟩, ⟨rfl, rfl⟩⟩

/-- C10: `HeartbeatHandle::stop` always returns normally with the unit value;
when the receiver is gone the send failure is only logged as a warning,
never surfaced as an error. -/
theorem C10_stop_never_errors (h : HeartbeatHandle) (receiverAlive : Bool) :
    HeartbeatHandle.stop h receiverAlive =
      ((), if receiverAlive then []
        else ["Could not send stop signal to heartbeat: already gone"]) := by
  cases receiverAlive <;> rfl

end Lapin
